import Mathlib

/-!
Verification of the MQTT ingestion and state-normalization layer of the
SmartWorkMCD Monitor dashboard.  The definitions below are shallow
embeddings of the TypeScript source: `MqttService` (task cache, warning
ring buffer, rule-evaluation handling, status mapping tables, reconnect
and disconnect logic), the context provider's connection-health check,
and the derived system-efficiency metric.
-/

namespace Monitor

/-- Task status values (`src/types`): raw statuses plus the dashboard's
normalized values. -/
inductive TaskStatus where
  | pending
  | inProgress
  | completed
  | started
  | waitingConfirmation
  | failed
deriving DecidableEq

/-- Overall system status (`src/types`). -/
inductive SystemStatus where
  | Operational
  | Warning
  | Critical
deriving DecidableEq

/-- Warning severity (`src/types`). -/
inductive WarningSeverity where
  | low
  | medium
  | high
deriving DecidableEq

/-- A dashboard warning entry (`src/types`). -/
structure Warning where
  id : Nat
  severity : WarningSeverity
  message : String
  timestamp : Int
  rule_id : Option String := none
  details : Option String := none
deriving DecidableEq

/-- A dashboard task entry as built by `MqttService.updateTask`
(`id`, `title`, `status`, `deadline`). -/
structure Task where
  id : Nat
  title : String
  status : TaskStatus
  deadline : Nat
deriving DecidableEq

/-- A `task_update` event from the Workstation Brain
(`MqttService.TaskUpdateEvent`). -/
structure TaskUpdateEvent where
  timestamp : Int
  task_id : String
  subtask_id : String
  status : String
  progress : ℚ
deriving DecidableEq

/-- A `rule_evaluation` event (`MqttService.RuleEvaluationEvent`). -/
structure RuleEvaluationEvent where
  timestamp : Int
  rule_id : String
  satisfied : Bool
  details : String
deriving DecidableEq

/-- A `system_status` event (`MqttService.SystemStatusEvent`). -/
structure SystemStatusEvent where
  timestamp : Int
  status : String
  message : String
deriving DecidableEq

/-! ### Status mapping tables (`MqttService.mapTaskStatus`,
`MqttService.updateSystemStatus`) -/

/-- `MqttService.mapTaskStatus`: the `statusMap` object lookup with
default `'pending'` (`statusMap[status] || 'pending'`). -/
def mapTaskStatus (status : String) : TaskStatus :=
  if status = "started" then .inProgress
  else if status = "in_progress" then .inProgress
  else if status = "waiting_confirmation" then .inProgress
  else if status = "completed" then .completed
  else if status = "failed" then .pending
  else .pending

/-- The `statusMapping` lookup inside `MqttService.updateSystemStatus`,
with default `'Operational'` (`statusMapping[event.status] || 'Operational'`). -/
def systemStatusMapping (status : String) : SystemStatus :=
  if status = "idle" then .Operational
  else if status = "waiting" then .Operational
  else if status = "cleaning" then .Operational
  else if status = "executing" then .Operational
  else if status = "waiting_confirmation" then .Warning
  else if status = "completing" then .Operational
  else if status = "task_completed" then .Operational
  else if status = "error" then .Critical
  else .Operational

/-- Input to `MqttService.addWarning` (a `Warning` minus its `id`,
which `addWarning` assigns from the clock). -/
structure NewWarning where
  severity : WarningSeverity
  message : String
  timestamp : Int
deriving DecidableEq

/-- The warning record `MqttService.addWarning` constructs:
`{ id: Date.now(), ...warning }`. -/
def mkWarning (now : Nat) (nw : NewWarning) : Warning :=
  { id := now, severity := nw.severity, message := nw.message,
    timestamp := nw.timestamp }

/-- `MqttService.updateSystemStatus`: maps the raw token through
`systemStatusMapping` and, for `waiting_confirmation` / `error`,
synthesizes a warning (severity `high` for `error`, else `medium`;
message `event.message || "System status: <status>"`). -/
def updateSystemStatus (ev : SystemStatusEvent) : SystemStatus × Option NewWarning :=
  let systemStatus := systemStatusMapping ev.status
  let warn : Option NewWarning :=
    if ev.status = "waiting_confirmation" ∨ ev.status = "error" then
      some { severity := if ev.status = "error" then .high else .medium,
             message := if ev.message = "" then "System status: " ++ ev.status
                        else ev.message,
             timestamp := ev.timestamp * 1000 }
    else none
  (systemStatus, warn)

/-! ### Derived metrics (`calculateSystemEfficiency`) -/

/-- A running task entry of `TaskProgress.current_tasks` (`src/types`). -/
structure TaskExecution where
  task_id : String
  subtask_id : String
  status : TaskStatus
  progress : ℚ
deriving DecidableEq

/-- A completed-task entry of `TaskProgress.completed_tasks` (`src/types`). -/
structure TaskCompletion where
  task_id : String
  duration : ℚ
  timestamp : Nat
  success : Bool
deriving DecidableEq

/-- Task progress snapshot (`src/types`). -/
structure TaskProgress where
  current_tasks : List TaskExecution
  completed_tasks : List TaskCompletion
  task_queue : List String
deriving DecidableEq

/-- Real-time dashboard metrics (`src/types`). -/
structure RealTimeMetrics where
  candy_detection_rate : ℚ
  hand_tracking_accuracy : ℚ
  task_completion_rate : ℚ
  system_efficiency : ℚ
  network_latency : ℚ
  error_rate : ℚ
deriving DecidableEq

/-- `calculateSystemEfficiency` from the context provider: a weighted
blend of the in-progress task ratio, the completion rate and the
inverse error rate, clamped by `Math.max(0, Math.min(100, …))`. -/
def calculateSystemEfficiency (progress : TaskProgress) (metrics : RealTimeMetrics) : ℚ :=
  let activeTasksRatio : ℚ :=
    if 0 < progress.current_tasks.length then
      ((progress.current_tasks.filter (fun t => t.status = .inProgress)).length : ℚ) /
        (progress.current_tasks.length : ℚ)
    else 0
  let completionRate := metrics.task_completion_rate
  let errorRate := metrics.error_rate
  max 0 (min 100 (activeTasksRatio * 40 + completionRate * 5 + (100 - errorRate) * (55 / 100)))

/-! ### Connection health (`getConnectionHealth` and the health-check
timer of the context provider) -/

/-- The provider's `connectionStatus` record (`src/types`). -/
structure ConnStatus where
  mqtt_connected : Bool
  last_data_received : Nat
  message_count : Nat
  error_count : Nat
deriving DecidableEq

/-- The slice of the provider's `dataState` read by `getConnectionHealth`
and the health-check timer. -/
structure ProviderState where
  isConnected : Bool
  lastUpdate : Nat
  connectionStatus : ConnStatus
deriving DecidableEq

/-- Connection health classification. -/
inductive ConnectionHealth where
  | healthy
  | warning
  | critical
deriving DecidableEq

/-- `getConnectionHealth`: `critical` when disconnected; otherwise the
time since the last update and the error ratio are tested first against
the warning thresholds (60 s, 0.1) and then against the critical
thresholds (300 s, 0.3). -/
def getConnectionHealth (now : Nat) (s : ProviderState) : ConnectionHealth :=
  if !s.isConnected then .critical
  else
    let timeSinceLastUpdate : Int := (now : Int) - (s.lastUpdate : Int)
    let errorRate : ℚ :=
      (s.connectionStatus.error_count : ℚ) / (max 1 s.connectionStatus.message_count : ℚ)
    if timeSinceLastUpdate > 60000 ∨ errorRate > 1 / 10 then .warning
    else if timeSinceLastUpdate > 300000 ∨ errorRate > 3 / 10 then .critical
    else .healthy

/-- The health-check timer body: it calls `retryConnection` exactly when
`getConnectionHealth() === 'critical' && dataState.isConnected`. -/
def healthCheckTriggersReconnect (now : Nat) (s : ProviderState) : Bool :=
  decide (getConnectionHealth now s = .critical) && s.isConnected

/-! ### MqttService connection state (`handleReconnect`, `disconnect`) -/

/-- The connection-related fields of `MqttService`: the client handle
(`client !== null`), the connected flag, the reconnect attempt counter,
the pending reconnect timer (carrying its delay in ms) and the warning
log. -/
structure MqttState where
  client : Bool
  isConnected : Bool
  reconnectAttempts : Nat
  reconnectTimeout : Option Nat
  warnings : List Warning
deriving DecidableEq

/-- `maxReconnectAttempts` in `MqttService`. -/
def maxReconnectAttempts : Nat := 5

/-- `MqttService` state as constructed: no client-side bookkeeping yet. -/
def mqttInitialState : MqttState :=
  { client := true, isConnected := false, reconnectAttempts := 0,
    reconnectTimeout := none, warnings := [] }

/-- `MqttService.handleReconnect` (run on every unexpected `close`):
below the attempt cap it increments the counter and schedules a timer
with delay `5000 * this.reconnectAttempts`; at the cap it only logs
`'Max reconnection attempts reached'` and changes nothing. -/
def handleReconnect (s : MqttState) : MqttState :=
  if s.reconnectAttempts < maxReconnectAttempts then
    { s with reconnectAttempts := s.reconnectAttempts + 1,
             reconnectTimeout := some (5000 * (s.reconnectAttempts + 1)) }
  else s

/-- `n` consecutive unexpected closes, each running `handleReconnect`. -/
def iterReconnect : Nat → MqttState → MqttState
  | 0, s => s
  | n + 1, s => handleReconnect (iterReconnect n s)

/-- `MqttService.disconnect`: clears any pending reconnect timer, then,
if a client exists, ends it, nulls it, clears the connected flag and
fires `onConnectionChange(false)`.  The second component lists the
connection-change callback payloads fired by the call. -/
def disconnect (s : MqttState) : MqttState × List Bool :=
  let s1 : MqttState := { s with reconnectTimeout := none }
  if s1.client then
    ({ s1 with client := false, isConnected := false }, [false])
  else
    (s1, [])

/-! ### Task cache (`MqttService.updateTask`) -/

/-- `const taskId = event.subtask_id || event.task_id` (empty string is
falsy in JS). -/
def keyOf (e : TaskUpdateEvent) : String :=
  if e.subtask_id = "" then e.task_id else e.subtask_id

/-- `taskId.replace(/\D/g, '')`: keep only the digit characters. -/
def digitChars (s : String) : List Char :=
  s.toList.filter Char.isDigit

/-- Decimal value of a digit string. -/
def digitsVal (ds : List Char) : Nat :=
  ds.foldl (fun n c => n * 10 + (c.toNat - 48)) 0

/-- `parseInt(taskId.replace(/\D/g, '')) || Date.now()`: `parseInt` of
the digit string, falling back to the clock when it yields `NaN` (no
digits at all) or the falsy `0`. -/
def parseTaskNum (now : Nat) (taskId : String) : Nat :=
  if (digitChars taskId).isEmpty then now
  else if digitsVal (digitChars taskId) = 0 then now
  else digitsVal (digitChars taskId)

/-- The `taskTitles` lookup with default `` `Task ${taskId}` ``. -/
def taskTitle (taskId : String) : String :=
  if taskId = "T1A" then "Wrap Red Candies"
  else if taskId = "T1B" then "Wrap Green Candies"
  else if taskId = "T1C" then "Wrap Blue Candies"
  else if taskId = "T2A" then "Assemble Candy Boxes"
  else if taskId = "T3A" then "Insert Cardboard"
  else if taskId = "T3B" then "Apply Adhesive"
  else if taskId = "T3C" then "Decorative Finishing"
  else "Task " ++ taskId

/-- The `Task` record `MqttService.updateTask` builds from a
`task_update` event (`deadline: Date.now() + 86400000`; the event's
`progress` field is not read). -/
def mkTask (now : Nat) (e : TaskUpdateEvent) : Task :=
  { id := parseTaskNum now (keyOf e),
    title := taskTitle (keyOf e),
    status := mapTaskStatus e.status,
    deadline := now + 86400000 }

/-- The `currentTasks` cache: a JS `Map` as an insertion-ordered
association list. -/
abbrev TaskMap := List (String × Task)

/-- JS `Map.prototype.set`: replace in place if the key exists,
otherwise append. -/
def mapSet (k : String) (v : Task) : TaskMap → TaskMap
  | [] => [(k, v)]
  | p :: m => if p.1 = k then (k, v) :: m else p :: mapSet k v m

/-- JS `Map.prototype.get`. -/
def lookupTask (k : String) : TaskMap → Option Task
  | [] => none
  | p :: m => if p.1 = k then some p.2 else lookupTask k m

/-- `MqttService.updateTask`: `this.currentTasks.set(taskId, task)`. -/
def updateTask (now : Nat) (e : TaskUpdateEvent) (m : TaskMap) : TaskMap :=
  mapSet (keyOf e) (mkTask now e) m

/-- Apply a sequence of timed `task_update` events in order. -/
def applyTaskUpdates (es : List (Nat × TaskUpdateEvent)) (m : TaskMap) : TaskMap :=
  es.foldl (fun m te => updateTask te.1 te.2 m) m

/-- The last element of a list satisfying a predicate. -/
def findLast? (p : α → Bool) : List α → Option α
  | [] => none
  | a :: l =>
    match findLast? p l with
    | some b => some b
    | none => if p a then some a else none

/-! ### Warning ring buffer (`MqttService.addWarning`) and rule
evaluations (`MqttService.handleRuleEvaluation`) -/

/-- `MqttService.addWarning`: `unshift` the new warning, then
`slice(0, 50)` whenever the log exceeds 50 entries. -/
def addWarning (now : Nat) (nw : NewWarning) (l : List Warning) : List Warning :=
  if 50 < (mkWarning now nw :: l).length then (mkWarning now nw :: l).take 50
  else mkWarning now nw :: l

/-- Apply a sequence of timed warning insertions in order. -/
def addWarnings (ws : List (Nat × NewWarning)) (l : List Warning) : List Warning :=
  ws.foldl (fun l p => addWarning p.1 p.2 l) l

/-- `event.details || event.rule_id` (empty string is falsy). -/
def detailsOrRuleId (e : RuleEvaluationEvent) : String :=
  if e.details = "" then e.rule_id else e.details

/-- `details.toLowerCase()` as a character list. -/
def lowerChars (s : String) : List Char :=
  s.toList.map Char.toLower

/-- Whether the needle occurs at the head of the haystack. -/
def matchesAt : List Char → List Char → Bool
  | [], _ => true
  | _ :: _, [] => false
  | c :: n, d :: h => c == d && matchesAt n h

/-- JS `String.prototype.includes`: the needle occurs somewhere in the
haystack. -/
def containsSub (n : List Char) : List Char → Bool
  | [] => n.isEmpty
  | c :: t => matchesAt n (c :: t) || containsSub n t

def kwCritical : List Char := "critical".toList
def kwError : List Char := "error".toList
def kwFailed : List Char := "failed".toList
def kwWarning : List Char := "warning".toList
def kwAnomaly : List Char := "anomaly".toList
def kwConfirmation : List Char := "confirmation".toList

/-- `MqttService.mapSeverity`: keyword scan of the lowercased text. -/
def mapSeverity (details : String) : WarningSeverity :=
  if containsSub kwCritical (lowerChars details)
      || containsSub kwError (lowerChars details)
      || containsSub kwFailed (lowerChars details) then .high
  else if containsSub kwWarning (lowerChars details)
      || containsSub kwAnomaly (lowerChars details)
      || containsSub kwConfirmation (lowerChars details) then .medium
  else .low

/-- The warning payload `MqttService.handleRuleEvaluation` passes to
`addWarning` for an unsatisfied rule. -/
def ruleNewWarning (e : RuleEvaluationEvent) : NewWarning :=
  { severity := mapSeverity (detailsOrRuleId e),
    message := if e.details = "" then "Rule " ++ e.rule_id ++ " evaluation failed"
               else e.details,
    timestamp := e.timestamp * 1000 }

/-- The single warning record an unsatisfied rule evaluation creates. -/
def ruleWarning (now : Nat) (e : RuleEvaluationEvent) : Warning :=
  mkWarning now (ruleNewWarning e)

/-- `MqttService.handleRuleEvaluation`: calls `addWarning` exactly when
`!event.satisfied`. -/
def handleRuleEvaluation (now : Nat) (e : RuleEvaluationEvent)
    (l : List Warning) : List Warning :=
  if e.satisfied then l else addWarning now (ruleNewWarning e) l

end Monitor

namespace Monitor

/-! ### C4: task-status mapping -/

/-- C4 counterexample: the claim says `'waiting_confirmation'` and
`'failed'` pass through `mapTaskStatus` unchanged; in the code
`'waiting_confirmation'` maps to `in-progress` and `'failed'` maps to
`pending`. -/
theorem mapTaskStatus_no_passthrough :
    mapTaskStatus "waiting_confirmation" = TaskStatus.inProgress ∧
    mapTaskStatus "waiting_confirmation" ≠ TaskStatus.waitingConfirmation ∧
    mapTaskStatus "failed" = TaskStatus.pending ∧
    mapTaskStatus "failed" ≠ TaskStatus.failed := by
  decide

/-- C4 (amended): `mapTaskStatus` sends `'started'`, `'in_progress'` and
`'waiting_confirmation'` to `in-progress`, `'completed'` to `completed`,
and `'failed'` together with every other string to `pending`. -/
theorem mapTaskStatus_table (s : String) :
    mapTaskStatus s =
      (if s = "started" ∨ s = "in_progress" ∨ s = "waiting_confirmation"
       then TaskStatus.inProgress
       else if s = "completed" then TaskStatus.completed
       else TaskStatus.pending) := by
  unfold mapTaskStatus
  split_ifs <;> simp_all

/-! ### C5: system-status mapping -/

/-- C5 counterexample: the claim says every token not in the lookup table
maps to `Warning`; the code's `updateSystemStatus` defaults to
`Operational` (`statusMapping[event.status] || 'Operational'`), as the
unmapped token `"offline"` shows. -/
theorem systemStatusMapping_default_not_warning :
    systemStatusMapping "offline" = SystemStatus.Operational ∧
    SystemStatus.Operational ≠ SystemStatus.Warning := by
  decide

/-- C5 (amended): every `system_status` event's raw token is mapped
through the fixed lookup into {Operational, Warning, Critical}
(`waiting_confirmation ↦ Warning`, `error ↦ Critical`, the six listed
operational tokens and every unmapped token ↦ Operational). -/
theorem updateSystemStatus_table (ev : SystemStatusEvent) :
    (updateSystemStatus ev).1 = systemStatusMapping ev.status ∧
    ∀ s : String, systemStatusMapping s =
      (if s = "waiting_confirmation" then SystemStatus.Warning
       else if s = "error" then SystemStatus.Critical
       else SystemStatus.Operational) := by
  refine ⟨rfl, fun s => ?_⟩
  unfold systemStatusMapping
  split_ifs <;> simp_all

/-! ### C10: system efficiency stays in [0, 100] -/

/-- C10: for every `TaskProgress` and every `RealTimeMetrics` input
(including empty `current_tasks` and arbitrary completion/error rates),
`calculateSystemEfficiency` returns a value in the closed interval
[0, 100]. -/
theorem calculateSystemEfficiency_bounds (progress : TaskProgress)
    (metrics : RealTimeMetrics) :
    0 ≤ calculateSystemEfficiency progress metrics ∧
    calculateSystemEfficiency progress metrics ≤ 100 := by
  unfold calculateSystemEfficiency
  constructor
  · exact le_max_left 0 _
  · exact max_le (by norm_num) (min_le_left 100 _)

/-! ### C7: connection health and the forced-reconnect trigger -/

/-- C7 (code bug): while the connection flag is true,
`getConnectionHealth` can never return `critical` — the warning check
(60 s / 0.1) is tested first and is implied by the critical check
(300 s / 0.3) — so the health-check timer's forced reconnect
(`health === 'critical' && isConnected`) never fires. -/
theorem getConnectionHealth_critical_unreachable (now : Nat) (s : ProviderState)
    (h : s.isConnected = true) :
    getConnectionHealth now s ≠ ConnectionHealth.critical ∧
    healthCheckTriggersReconnect now s = false := by
  have hmain : getConnectionHealth now s ≠ ConnectionHealth.critical := by
    unfold getConnectionHealth
    rw [h]
    simp only [Bool.not_true, Bool.false_eq_true, if_false]
    split_ifs with h1 h2
    · simp
    · exfalso
      push_neg at h1
      obtain ⟨h1a, h1b⟩ := h1
      rcases h2 with h2 | h2
      · omega
      · linarith
    · simp
  refine ⟨hmain, ?_⟩
  unfold healthCheckTriggersReconnect
  simp [hmain]

/-- The concrete failing input for C7: a connected provider whose last
update is 400 s stale (far past the 300 s critical threshold) is
classified `warning`, not `critical`, and no reconnect is triggered. -/
def staleConnectedState : ProviderState :=
  { isConnected := true, lastUpdate := 0,
    connectionStatus :=
      { mqtt_connected := true, last_data_received := 0,
        message_count := 10, error_count := 0 } }

/-- C7 witness: `getConnectionHealth_critical_unreachable` applied to
the stale-but-connected concrete state at time 400 000 ms. -/
theorem getConnectionHealth_critical_unreachable_witness :
    staleConnectedState.isConnected = true ∧
    (getConnectionHealth 400000 staleConnectedState ≠ ConnectionHealth.critical ∧
     healthCheckTriggersReconnect 400000 staleConnectedState = false) :=
  ⟨by decide, getConnectionHealth_critical_unreachable 400000 staleConnectedState (by decide)⟩

/-! ### C8: `disconnect` is idempotent and clears the reconnect timer -/

/-- C8: after one `disconnect`, the reconnect timer is cleared and the
client is gone; a second `disconnect` changes nothing and fires no
connection-change callback. -/
theorem disconnect_idempotent (s : MqttState) :
    (disconnect s).1.reconnectTimeout = none ∧
    (disconnect s).1.client = false ∧
    disconnect (disconnect s).1 = ((disconnect s).1, []) := by
  unfold disconnect
  by_cases h : s.client <;> simp [h]

/-! ### C6: reconnect backoff is linear and exhaustion emits no warning -/

/-- C6 counterexample: the delays scheduled on the second and third
close are 10 000 ms and 15 000 ms — not doubling (nor hitting a 30 s
cap) — and after the 5 attempts are exhausted (6 closes) the warning
log is still empty, so no terminal high-severity warning was surfaced. -/
theorem handleReconnect_not_exponential_no_warning :
    (iterReconnect 2 mqttInitialState).reconnectTimeout = some 10000 ∧
    (iterReconnect 3 mqttInitialState).reconnectTimeout = some 15000 ∧
    (15000 : Nat) ≠ min 30000 (2 * 10000) ∧
    (iterReconnect 6 mqttInitialState).reconnectAttempts = maxReconnectAttempts ∧
    (iterReconnect 6 mqttInitialState).warnings = [] := by
  decide

/-- Auxiliary: full characterization of the service state after `n`
unexpected closes from the initial state — the warning log, client
handle and connected flag are untouched, the attempt counter is
`min n 5`, and the scheduled delay is `5000 * min n 5`. -/
theorem iterReconnect_charac (n : Nat) :
    (iterReconnect n mqttInitialState).client = true ∧
    (iterReconnect n mqttInitialState).isConnected = false ∧
    (iterReconnect n mqttInitialState).warnings = [] ∧
    (iterReconnect n mqttInitialState).reconnectAttempts = min n maxReconnectAttempts ∧
    (iterReconnect n mqttInitialState).reconnectTimeout =
      (if n = 0 then none else some (5000 * min n maxReconnectAttempts)) := by
  induction n with
  | zero =>
    refine ⟨rfl, rfl, rfl, ?_, rfl⟩
    simp [iterReconnect, mqttInitialState]
  | succ n ih =>
    obtain ⟨hc, hi, hw, ha, ht⟩ := ih
    have hstep : iterReconnect (n + 1) mqttInitialState =
        handleReconnect (iterReconnect n mqttInitialState) := rfl
    by_cases h : (iterReconnect n mqttInitialState).reconnectAttempts < maxReconnectAttempts
    · have hH : handleReconnect (iterReconnect n mqttInitialState) =
          { iterReconnect n mqttInitialState with
              reconnectAttempts := (iterReconnect n mqttInitialState).reconnectAttempts + 1,
              reconnectTimeout :=
                some (5000 * ((iterReconnect n mqttInitialState).reconnectAttempts + 1)) } := by
        unfold handleReconnect
        rw [if_pos h]
      rw [hstep, hH]
      rw [ha] at h
      refine ⟨hc, hi, hw, ?_, ?_⟩
      · show (iterReconnect n mqttInitialState).reconnectAttempts + 1 = _
        rw [ha]
        unfold maxReconnectAttempts at h ⊢
        omega
      · show (some (5000 * ((iterReconnect n mqttInitialState).reconnectAttempts + 1)) :
            Option Nat) = _
        rw [ha, if_neg (Nat.succ_ne_zero n)]
        unfold maxReconnectAttempts at h ⊢
        congr 2
        omega
    · have hH : handleReconnect (iterReconnect n mqttInitialState) =
          iterReconnect n mqttInitialState := by
        unfold handleReconnect
        rw [if_neg h]
      rw [hstep, hH]
      push_neg at h
      rw [ha] at h
      have hn : maxReconnectAttempts ≤ n := le_trans h (min_le_left n maxReconnectAttempts)
      refine ⟨hc, hi, hw, ?_, ?_⟩
      · rw [ha]
        omega
      · rw [ht, if_neg (by unfold maxReconnectAttempts at hn; omega),
            if_neg (Nat.succ_ne_zero n)]
        congr 2
        omega

/-- C6 (amended): reconnect delays grow linearly — the `n`-th close
schedules a timer of `5000 * n` ms (so 5 s, 10 s, …, 25 s), the attempt
counter is capped at 5, further closes past the cap change nothing, and
no warning is ever added to the log (exhaustion only logs to the
console). -/
theorem handleReconnect_linear_capped_silent (n : Nat) (h : 1 ≤ n) :
    (iterReconnect n mqttInitialState).reconnectAttempts = min n maxReconnectAttempts ∧
    (iterReconnect n mqttInitialState).reconnectTimeout =
      some (5000 * min n maxReconnectAttempts) ∧
    (iterReconnect n mqttInitialState).warnings = [] := by
  obtain ⟨-, -, hw, ha, ht⟩ := iterReconnect_charac n
  exact ⟨ha, by rw [ht, if_neg (by omega)], hw⟩

/-- C6 witness: `handleReconnect_linear_capped_silent` at `n = 6`
(one close past exhaustion). -/
theorem handleReconnect_linear_capped_silent_witness :
    1 ≤ 6 ∧
    ((iterReconnect 6 mqttInitialState).reconnectAttempts = min 6 maxReconnectAttempts ∧
     (iterReconnect 6 mqttInitialState).reconnectTimeout =
       some (5000 * min 6 maxReconnectAttempts) ∧
     (iterReconnect 6 mqttInitialState).warnings = []) :=
  ⟨by decide, handleReconnect_linear_capped_silent 6 (by decide)⟩

/-! ### C1: the task cache is keyed and last-write-wins -/

/-- Auxiliary: `Map.set` followed by `Map.get`. -/
theorem lookupTask_mapSet (k k2 : String) (v : Task) (m : TaskMap) :
    lookupTask k2 (mapSet k v m) = if k = k2 then some v else lookupTask k2 m := by
  induction m with
  | nil =>
    simp only [mapSet, lookupTask]
  | cons p m ih =>
    simp only [mapSet, lookupTask]
    split_ifs <;> simp_all [lookupTask]

/-- Auxiliary: the key list after a `Map.set`. -/
theorem keys_mapSet (k : String) (v : Task) (m : TaskMap) :
    (mapSet k v m).map Prod.fst =
      (if k ∈ m.map Prod.fst then m.map Prod.fst else m.map Prod.fst ++ [k]) := by
  induction m with
  | nil => simp [mapSet]
  | cons p m ih =>
    simp only [mapSet, List.map_cons]
    by_cases h : p.1 = k
    · rw [if_pos h, if_pos (by simp [h])]
      simp [h]
    · rw [if_neg h]
      simp only [List.map_cons, ih, List.mem_cons]
      by_cases h2 : k ∈ m.map Prod.fst
      · rw [if_pos h2, if_pos (Or.inr h2)]
      · rw [if_neg h2, if_neg (by
          rintro (h3 | h3)
          · exact h h3.symm
          · exact h2 h3)]
        simp

/-- Auxiliary: `Map.set` preserves distinctness of the keys. -/
theorem nodup_keys_mapSet (k : String) (v : Task) (m : TaskMap)
    (h : (m.map Prod.fst).Nodup) : ((mapSet k v m).map Prod.fst).Nodup := by
  rw [keys_mapSet]
  split_ifs with h1
  · exact h
  · rw [List.nodup_append]
    refine ⟨h, List.nodup_singleton k, ?_⟩
    intro a ha hak
    rw [List.mem_singleton] at hak
    exact h1 (hak ▸ ha)

/-- Auxiliary: key membership after a `Map.set`. -/
theorem mem_keys_mapSet (k2 k : String) (v : Task) (m : TaskMap) :
    k2 ∈ (mapSet k v m).map Prod.fst ↔ k2 = k ∨ k2 ∈ m.map Prod.fst := by
  rw [keys_mapSet]
  split_ifs with h1
  · constructor
    · exact Or.inr
    · rintro (h2 | h2)
      · exact h2 ▸ h1
      · exact h2
  · simp [List.mem_append, or_comm]

/-- Auxiliary: the task cache after a fold of updates has distinct keys. -/
theorem nodup_keys_applyTaskUpdates (es : List (Nat × TaskUpdateEvent)) (m : TaskMap)
    (h : (m.map Prod.fst).Nodup) : ((applyTaskUpdates es m).map Prod.fst).Nodup := by
  induction es generalizing m with
  | nil => exact h
  | cons te es ih => exact ih _ (nodup_keys_mapSet _ _ _ h)

/-- Auxiliary: key membership in the folded task cache. -/
theorem mem_keys_applyTaskUpdates (k : String) (es : List (Nat × TaskUpdateEvent))
    (m : TaskMap) :
    k ∈ (applyTaskUpdates es m).map Prod.fst ↔
      k ∈ es.map (fun te => keyOf te.2) ∨ k ∈ m.map Prod.fst := by
  induction es generalizing m with
  | nil => simp [applyTaskUpdates]
  | cons te es ih =>
    show k ∈ (applyTaskUpdates es (updateTask te.1 te.2 m)).map Prod.fst ↔ _
    rw [ih, updateTask.eq_def, mem_keys_mapSet]
    simp only [List.map_cons, List.mem_cons]
    tauto

/-- Auxiliary: lookup in the folded task cache is decided by the last
update with the matching key. -/
theorem lookupTask_applyTaskUpdates (k : String) (es : List (Nat × TaskUpdateEvent))
    (m : TaskMap) :
    lookupTask k (applyTaskUpdates es m) =
      (match findLast? (fun te => keyOf te.2 == k) es with
       | some te => some (mkTask te.1 te.2)
       | none => lookupTask k m) := by
  induction es generalizing m with
  | nil => rfl
  | cons te es ih =>
    show lookupTask k (applyTaskUpdates es (updateTask te.1 te.2 m)) = _
    rw [ih]
    cases hf : findLast? (fun te => keyOf te.2 == k) es with
    | some b => simp [findLast?, hf]
    | none =>
      simp only [findLast?, hf]
      rw [updateTask.eq_def, lookupTask_mapSet]
      by_cases hk : keyOf te.2 = k
      · simp [hk]
      · simp [hk]

/-- Auxiliary: `findLast?` only depends on the predicate's values on the
list. -/
theorem findLast?_congr (p q : α → Bool) (l : List α)
    (h : ∀ a ∈ l, p a = q a) : findLast? p l = findLast? q l := by
  induction l with
  | nil => rfl
  | cons a l ih =>
    simp only [findLast?]
    rw [ih (fun b hb => h b (List.mem_cons_of_mem a hb)),
      h a (List.mem_cons_self a l)]

/-- C1: applying any sequence of `task_update` events (all carrying a
subtask id) to an empty cache via `MqttService.updateTask` yields a
cache with exactly one entry per distinct subtask id — the key list has
no duplicates and contains exactly the subtask ids that occurred — and
the entry under each id is the task built from the most recently
applied update with that id (last-write-wins). -/
theorem updateTask_last_write_wins (es : List (Nat × TaskUpdateEvent))
    (h : ∀ te ∈ es, te.2.subtask_id ≠ "") :
    ((applyTaskUpdates es []).map Prod.fst).Nodup ∧
    (∀ k, k ∈ (applyTaskUpdates es []).map Prod.fst ↔
        k ∈ es.map (fun te => te.2.subtask_id)) ∧
    (∀ k, lookupTask k (applyTaskUpdates es []) =
        (findLast? (fun te => te.2.subtask_id == k) es).map
          (fun te => mkTask te.1 te.2)) := by
  have hkey : ∀ te ∈ es, keyOf te.2 = te.2.subtask_id := by
    intro te hte
    unfold keyOf
    rw [if_neg (h te hte)]
  refine ⟨nodup_keys_applyTaskUpdates es [] List.nodup_nil, fun k => ?_, fun k => ?_⟩
  · rw [mem_keys_applyTaskUpdates]
    simp only [List.map_nil, List.not_mem_nil, or_false]
    constructor
    · intro hm
      obtain ⟨te, hte, hk⟩ := List.mem_map.mp hm
      exact List.mem_map.mpr ⟨te, hte, (hkey te hte) ▸ hk⟩
    · intro hm
      obtain ⟨te, hte, hk⟩ := List.mem_map.mp hm
      exact List.mem_map.mpr ⟨te, hte, (hkey te hte).symm ▸ hk⟩
  · rw [lookupTask_applyTaskUpdates,
      findLast?_congr _ (fun te => te.2.subtask_id == k) es
        (fun te hte => by rw [hkey te hte])]
    cases findLast? (fun te => te.2.subtask_id == k) es <;> rfl

/-- A first update for subtask `T1A`. -/
def evA : TaskUpdateEvent :=
  { timestamp := 1, task_id := "T1", subtask_id := "T1A",
    status := "started", progress := 0 }

/-- An update for subtask `T2A`. -/
def evB : TaskUpdateEvent :=
  { timestamp := 2, task_id := "T2", subtask_id := "T2A",
    status := "in_progress", progress := 1 / 2 }

/-- A second, superseding update for subtask `T1A`. -/
def evA2 : TaskUpdateEvent :=
  { timestamp := 3, task_id := "T1", subtask_id := "T1A",
    status := "completed", progress := 1 }

/-- A concrete event sequence with a duplicated subtask id. -/
def taskSeq : List (Nat × TaskUpdateEvent) := [(100, evA), (200, evB), (300, evA2)]

/-- C1 witness: `updateTask_last_write_wins` on the concrete sequence;
the duplicated id `T1A` holds the task of the latest update (time 300,
status `completed`). -/
theorem updateTask_last_write_wins_witness :
    (∀ te ∈ taskSeq, te.2.subtask_id ≠ "") ∧
    lookupTask "T1A" (applyTaskUpdates taskSeq []) = some (mkTask 300 evA2) ∧
    ((applyTaskUpdates taskSeq []).map Prod.fst).Nodup := by
  have h := updateTask_last_write_wins taskSeq (by decide)
  refine ⟨by decide, ?_, h.1⟩
  rw [h.2.2 "T1A"]
  decide

/-! ### C9: out-of-range progress is tolerated but never stored -/

/-- A `task_update` carrying `progress = -0.1`. -/
def evProgNeg : TaskUpdateEvent :=
  { timestamp := 0, task_id := "T1", subtask_id := "T1A",
    status := "started", progress := -(1 / 10) }

/-- The same `task_update` carrying `progress = 1.5`. -/
def evProgBig : TaskUpdateEvent :=
  { timestamp := 0, task_id := "T1", subtask_id := "T1A",
    status := "started", progress := 3 / 2 }

/-- C9 counterexample: two updates differing only in `progress` (-0.1
vs 1.5) produce identical caches, so the progress value is not stored
at all — the claim that it is "stored as given" fails. -/
theorem updateTask_progress_not_stored :
    updateTask 0 evProgNeg [] = updateTask 0 evProgBig [] ∧
    evProgNeg.progress ≠ evProgBig.progress := by
  constructor
  · rfl
  · simp only [evProgNeg, evProgBig]
    norm_num

/-- C9 (amended): `updateTask` accepts every progress value (including
values outside [0,1]) without failing and still upserts the task, but
the cached `Task` record carries no progress field — the update result
is independent of the event's `progress`. -/
theorem updateTask_ignores_progress (now : Nat) (e : TaskUpdateEvent) (p : ℚ)
    (m : TaskMap) :
    updateTask now { e with progress := p } m = updateTask now e m ∧
    lookupTask (keyOf e) (updateTask now e m) = some (mkTask now e) := by
  refine ⟨rfl, ?_⟩
  rw [updateTask.eq_def, lookupTask_mapSet, if_pos rfl]

/-! ### C2: the warning log is a capacity-50 ring buffer -/

/-- Auxiliary: one insertion is exactly "prepend then truncate to 50". -/
theorem addWarning_eq_take (now : Nat) (nw : NewWarning) (l : List Warning) :
    addWarning now nw l = (mkWarning now nw :: l).take 50 := by
  unfold addWarning
  by_cases h2 : 50 < (mkWarning now nw :: l).length
  · rw [if_pos h2]
  · rw [if_neg h2]
    exact (List.take_of_length_le (by simpa using h2)).symm

/-- Auxiliary: an insertion keeps the log within capacity. -/
theorem length_addWarning_le (now : Nat) (nw : NewWarning) (l : List Warning) :
    (addWarning now nw l).length ≤ 50 := by
  rw [addWarning_eq_take now nw l, List.length_take]
  omega

/-- Auxiliary: truncating before appending on the right does not change
the first 50 elements. -/
theorem take_append_take (a b : List Warning) :
    (a ++ b.take 50).take 50 = (a ++ b).take 50 := by
  rw [List.take_append_eq_append_take, List.take_append_eq_append_take,
    List.take_take, Nat.min_eq_left (Nat.sub_le 50 a.length)]

/-- Auxiliary: the folded warning log equals the reversed insertion
sequence, truncated to 50, on top of the initial log. -/
theorem addWarnings_eq_take (ws : List (Nat × NewWarning)) (l : List Warning)
    (h : l.length ≤ 50) :
    addWarnings ws l =
      ((ws.map (fun p => mkWarning p.1 p.2)).reverse ++ l).take 50 := by
  induction ws generalizing l with
  | nil =>
    show l = _
    rw [List.map_nil, List.reverse_nil, List.nil_append]
    exact (List.take_of_length_le h).symm
  | cons p ws ih =>
    show addWarnings ws (addWarning p.1 p.2 l) = _
    rw [ih _ (length_addWarning_le _ _ _), addWarning_eq_take _ _ _,
      take_append_take]
    simp [List.append_assoc]

/-- C2: adding `N > 50` warnings to an empty log through
`MqttService.addWarning` leaves exactly 50 entries: the 50 most recent
insertions in newest-first order (each warning is prepended and entries
past capacity are silently dropped). -/
theorem addWarning_ring_buffer (ws : List (Nat × NewWarning)) (h : 50 < ws.length) :
    addWarnings ws [] = ((ws.map (fun p => mkWarning p.1 p.2)).reverse).take 50 ∧
    (addWarnings ws []).length = 50 := by
  have h1 := addWarnings_eq_take ws [] (by simp)
  rw [List.append_nil] at h1
  refine ⟨h1, ?_⟩
  rw [h1, List.length_take, List.length_reverse, List.length_map]
  omega

/-- 51 concrete warning insertions. -/
def wsFiftyOne : List (Nat × NewWarning) :=
  (List.range 51).map
    (fun i => (i, { severity := .low, message := "w", timestamp := 0 }))

/-- C2 witness: `addWarning_ring_buffer` on 51 concrete insertions. -/
theorem addWarning_ring_buffer_witness :
    50 < wsFiftyOne.length ∧
    (addWarnings wsFiftyOne [] =
        ((wsFiftyOne.map (fun p => mkWarning p.1 p.2)).reverse).take 50 ∧
      (addWarnings wsFiftyOne []).length = 50) :=
  ⟨by simp [wsFiftyOne], addWarning_ring_buffer wsFiftyOne (by simp [wsFiftyOne])⟩

/-! ### C3: rule evaluations produce exactly one warning iff unsatisfied -/

/-- C3: a `rule_evaluation` event leaves the warning log unchanged when
`satisfied` is true; when `satisfied` is false it produces exactly one
warning — the log becomes that single new warning prepended (with
capacity truncation) — whose severity is the fixed keyword function of
the details/rule-id text: lowercased text containing
critical/error/failed ↦ high, else warning/anomaly/confirmation ↦
medium, else low. -/
theorem handleRuleEvaluation_charac (now : Nat) (e : RuleEvaluationEvent)
    (l : List Warning) :
    (e.satisfied = true → handleRuleEvaluation now e l = l) ∧
    (e.satisfied = false →
      handleRuleEvaluation now e l = (ruleWarning now e :: l).take 50 ∧
      (ruleWarning now e).severity =
        (if containsSub kwCritical (lowerChars (detailsOrRuleId e))
            || containsSub kwError (lowerChars (detailsOrRuleId e))
            || containsSub kwFailed (lowerChars (detailsOrRuleId e))
         then WarningSeverity.high
         else if containsSub kwWarning (lowerChars (detailsOrRuleId e))
            || containsSub kwAnomaly (lowerChars (detailsOrRuleId e))
            || containsSub kwConfirmation (lowerChars (detailsOrRuleId e))
         then WarningSeverity.medium
         else WarningSeverity.low)) := by
  constructor
  · intro hs
    unfold handleRuleEvaluation
    rw [if_pos hs]
  · intro hs
    refine ⟨?_, rfl⟩
    unfold handleRuleEvaluation
    rw [if_neg (by simp [hs])]
    exact addWarning_eq_take now (ruleNewWarning e) l

/-- A concrete failed rule evaluation whose details mention an anomaly. -/
def evRule : RuleEvaluationEvent :=
  { timestamp := 7, rule_id := "rule_42", satisfied := false,
    details := "Color anomaly detected" }

/-- C3 witness: `handleRuleEvaluation_charac` on the concrete unsatisfied
event — exactly one warning is produced and its severity evaluates to
`medium` (the details contain `anomaly`). -/
theorem handleRuleEvaluation_charac_witness :
    evRule.satisfied = false ∧
    handleRuleEvaluation 9 evRule [] = (ruleWarning 9 evRule :: []).take 50 ∧
    (ruleWarning 9 evRule).severity = WarningSeverity.medium :=
  ⟨by decide,
    ((handleRuleEvaluation_charac 9 evRule []).2 (by decide)).1,
    (((handleRuleEvaluation_charac 9 evRule []).2 (by decide)).2).trans
      (by decide)⟩

end Monitor
